import Mathlib

/-!
Shallow embedding of `src/app.py`, a FastAPI login/logout demo service.

The mutable global `active_tokens` (a Python dict mapping token strings to
session records) is modelled as an explicit association-list state threaded
through every operation.  The static global `fake_users_db` is modelled as a
constant association list.  A raised `HTTPException(status_code, detail)` is
modelled as `Except.error` carrying an `HTTPError`; a normal return is
`Except.ok`.  The value produced by `secrets.token_urlsafe(32)` inside `login`
is modelled as an explicit input `freshToken`, and `datetime.utcnow()` as an
explicit input `now : Nat`: the Python code uses whatever string and time
those calls yield and places no constraint on them.

In the error taxonomy of the specification, the code maps
`AuthError.InvalidCredentials` to the HTTP 401 response with detail
"Incorrect username or password", and both `SessionError.NotFound` and
`SessionError.Expired` to the HTTP 401 response with detail
"Invalid or expired token".
-/

/-- A record of `fake_users_db`: a dict with `username` and `password` keys. -/
structure UserRecord where
  username : String
  password : String
deriving DecidableEq

/-- A record of `active_tokens`: a dict with `username` and `created_at` keys.
There is no `expires_at` field anywhere in the source. -/
structure SessionRecord where
  username : String
  created_at : Nat
deriving DecidableEq

/-- A raised `HTTPException` with its status code and detail message. -/
structure HTTPError where
  status : Nat
  detail : String
deriving DecidableEq

/-- The `User` pydantic response model. -/
structure User where
  username : String
deriving DecidableEq

/-- Dict lookup `d.get(k)`: first binding of the key, `none` if absent. -/
def dget {A : Type} (k : String) : List (String × A) → Option A
  | [] => none
  | pr :: rest => if pr.1 = k then some pr.2 else dget k rest

/-- Dict deletion `del d[k]`: drops every binding of the key. -/
def ddel {A : Type} (k : String) : List (String × A) → List (String × A)
  | [] => []
  | pr :: rest => if pr.1 = k then ddel k rest else pr :: ddel k rest

/-- Dict assignment `d[k] = v`: binds the key to `v`, replacing any
previous binding. -/
def dins {A : Type} (k : String) (v : A) (t : List (String × A)) :
    List (String × A) :=
  (k, v) :: ddel k t

/-- The in-memory token store `active_tokens`, the only mutable state. -/
abbrev SessionTable := List (String × SessionRecord)

/-- The in-memory user store `fake_users_db`, created at process start and
never modified afterwards. -/
def fake_users_db : List (String × UserRecord) :=
  [("alice", ⟨"alice", "wonderland"⟩)]

/-- The truth value of `not user or user["password"] != form_data.password`
for `user = fake_users_db.get(username)`: true exactly when the username is
unknown or the secret does not match. -/
def bad_credentials (username password : String) : Bool :=
  match dget username fake_users_db with
  | none => true
  | some user => user.password != password

/-- `POST /login`: authenticate against `fake_users_db` and, on success,
store a fresh session record under the generated token and return the token.
`freshToken` is the string returned by `secrets.token_urlsafe(32)` and `now`
the value of `datetime.utcnow()` for this call. -/
def login (now : Nat) (freshToken : String) (username password : String)
    (tbl : SessionTable) : Except HTTPError String × SessionTable :=
  match dget username fake_users_db with
  | none => (Except.error ⟨401, "Incorrect username or password"⟩, tbl)
  | some user =>
    if user.password != password then
      (Except.error ⟨401, "Incorrect username or password"⟩, tbl)
    else
      (Except.ok freshToken, dins freshToken ⟨user.username, now⟩ tbl)

/-- The `get_current_user` dependency: look the token up in `active_tokens`
and return the recorded username, or raise 401.  The lookup `active_tokens.get`
never mutates the dict, so the table is returned unchanged on both paths. -/
def get_current_user (token : String) (tbl : SessionTable) :
    Except HTTPError User × SessionTable :=
  match dget token tbl with
  | none => (Except.error ⟨401, "Invalid or expired token"⟩, tbl)
  | some token_data => (Except.ok ⟨token_data.username⟩, tbl)

/-- `POST /logout`: delete the token from `active_tokens` when present,
otherwise raise 401. -/
def logout (token : String) (tbl : SessionTable) :
    Except HTTPError String × SessionTable :=
  if (dget token tbl).isSome then
    (Except.ok "Successfully logged out.", ddel token tbl)
  else
    (Except.error ⟨401, "Invalid or expired token"⟩, tbl)

/-- `GET /me`: returns the `User` resolved by the `get_current_user`
dependency. -/
def read_users_me (token : String) (tbl : SessionTable) :
    Except HTTPError User × SessionTable :=
  get_current_user token tbl

/-- One externally triggered request against the service.  A `login` carries
the form credentials together with the token string the random source yields
and the current time for that call. -/
inductive Op
  | login (username password freshToken : String) (now : Nat)
  | logout (token : String)
  | whoami (token : String)
deriving DecidableEq

/-- The token string a request would draw from the random source, if any. -/
def opFreshToken : Op → Option String
  | .login _ _ tok _ => some tok
  | _ => none

/-- The state transition of one request: the `active_tokens` table it leaves
behind. -/
def step (tbl : SessionTable) : Op → SessionTable
  | .login u p tok now => (login now tok u p tbl).2
  | .logout t => (logout t tbl).2
  | .whoami t => (get_current_user t tbl).2

/-- Run a sequence of requests from a starting table. -/
def run (tbl : SessionTable) : List Op → SessionTable
  | [] => tbl
  | op :: ops => run (step tbl op) ops

/-- The tokens returned by the successful logins of a request sequence, in
order. -/
def issuedTokens (tbl : SessionTable) : List Op → List String
  | [] => []
  | op :: ops =>
    match op with
    | .login u p tok now =>
      match (login now tok u p tbl).1 with
      | .ok t => t :: issuedTokens (step tbl op) ops
      | .error _ => issuedTokens (step tbl op) ops
    | _ => issuedTokens (step tbl op) ops

/-- Invariant of claim C7: every record in the session table names a username
present in `fake_users_db`. -/
def TableInv (tbl : SessionTable) : Prop :=
  ∀ pr ∈ tbl, (dget pr.2.username fake_users_db).isSome

/-! ### Basic dictionary lemmas -/

theorem dget_dins_self {A : Type} (k : String) (v : A) (t : List (String × A)) :
    dget k (dins k v t) = some v := by
  simp [dins, dget]

theorem dget_ddel_self {A : Type} (k : String) (t : List (String × A)) :
    dget k (ddel k t) = none := by
  induction t with
  | nil => rfl
  | cons pr rest ih =>
    by_cases h : pr.1 = k
    · simp [ddel, h, ih]
    · simp [ddel, dget, h, ih]

theorem dget_ddel_ne {A : Type} {k k2 : String} (h : k2 ≠ k)
    (t : List (String × A)) : dget k (ddel k2 t) = dget k t := by
  induction t with
  | nil => rfl
  | cons pr rest ih =>
    rw [ddel]
    by_cases h1 : pr.1 = k2
    · rw [if_pos h1, ih]
      have h2 : pr.1 ≠ k := fun hh => h (h1.symm.trans hh)
      rw [dget, if_neg h2]
    · rw [if_neg h1, dget, dget, ih]

theorem dget_dins_ne {A : Type} {k k2 : String} (h : k2 ≠ k) (v : A)
    (t : List (String × A)) : dget k (dins k2 v t) = dget k t := by
  simp [dins, dget, h, dget_ddel_ne h]

theorem mem_ddel {A : Type} {pr : String × A} {k : String}
    {t : List (String × A)} (h : pr ∈ ddel k t) : pr ∈ t := by
  induction t with
  | nil => simp [ddel] at h
  | cons q rest ih =>
    by_cases h1 : q.1 = k
    · rw [ddel, if_pos h1] at h
      exact List.mem_cons_of_mem _ (ih h)
    · rw [ddel, if_neg h1] at h
      rcases List.mem_cons.mp h with he | hm
      · exact he ▸ List.mem_cons_self _ _
      · exact List.mem_cons_of_mem _ (ih hm)

/-! ### Characterizations of the operations -/

theorem dget_db (u : String) :
    dget u fake_users_db
      = if u = "alice" then some ⟨"alice", "wonderland"⟩ else none := by
  by_cases hu : u = "alice"
  · subst hu; simp [fake_users_db, dget]
  · have hau : ¬("alice" = u) := fun hh => hu hh.symm
    simp [fake_users_db, dget, hau, hu]

theorem login_eq (now : Nat) (tok u p : String) (tbl : SessionTable) :
    login now tok u p tbl =
      if u = "alice" ∧ p = "wonderland" then
        (Except.ok tok, dins tok ⟨"alice", now⟩ tbl)
      else
        (Except.error ⟨401, "Incorrect username or password"⟩, tbl) := by
  by_cases hu : u = "alice"
  · subst hu
    by_cases hp : p = "wonderland"
    · subst hp
      simp [login, fake_users_db, dget]
    · have hw : (("wonderland" : String) != p) = true :=
        bne_iff_ne.mpr (fun hh => hp hh.symm)
      simp [login, fake_users_db, dget, hw, hp]
  · have hau : ¬("alice" = u) := fun hh => hu hh.symm
    simp [login, fake_users_db, dget, hau, hu]

theorem bad_credentials_false (u p : String)
    (h : bad_credentials u p = false) : u = "alice" ∧ p = "wonderland" := by
  by_cases hu : u = "alice"
  · subst hu
    by_cases hp : p = "wonderland"
    · exact ⟨rfl, hp⟩
    · exfalso
      have hw : (("wonderland" : String) != p) = true :=
        bne_iff_ne.mpr (fun hh => hp hh.symm)
      have hbad : bad_credentials "alice" p = true := by
        simp [bad_credentials, fake_users_db, dget, hw]
      rw [hbad] at h
      exact Bool.noConfusion h
  · exfalso
    have hau : ¬("alice" = u) := fun hh => hu hh.symm
    have hbad : bad_credentials u p = true := by
      simp [bad_credentials, fake_users_db, dget, hau]
    rw [hbad] at h
    exact Bool.noConfusion h

theorem not_good_of_bad (u p : String) (h : bad_credentials u p = true) :
    ¬(u = "alice" ∧ p = "wonderland") := by
  rintro ⟨hu, hp⟩
  subst hu; subst hp
  have hgood : bad_credentials "alice" "wonderland" = false := by decide
  rw [hgood] at h
  exact Bool.noConfusion h

theorem get_current_user_snd (t : String) (tbl : SessionTable) :
    (get_current_user t tbl).2 = tbl := by
  unfold get_current_user
  cases dget t tbl <;> rfl

/-! ### Preservation lemmas over request sequences -/

theorem alice_record_preserved (tok : String) (op : Op) (tbl : SessionTable)
    (hop : op ≠ Op.logout tok)
    (h : ∃ r, dget tok tbl = some r ∧ r.username = "alice") :
    ∃ r, dget tok (step tbl op) = some r ∧ r.username = "alice" := by
  obtain ⟨r, hr, hru⟩ := h
  cases op with
  | login u p tok2 now =>
    show ∃ r, dget tok (login now tok2 u p tbl).2 = some r ∧ r.username = "alice"
    rw [login_eq]
    by_cases hc : u = "alice" ∧ p = "wonderland"
    · rw [if_pos hc]
      by_cases ht : tok2 = tok
      · subst ht
        exact ⟨⟨"alice", now⟩, dget_dins_self tok2 _ tbl, rfl⟩
      · exact ⟨r, by rw [dget_dins_ne ht]; exact hr, hru⟩
    · rw [if_neg hc]
      exact ⟨r, hr, hru⟩
  | logout t =>
    have hne : t ≠ tok := fun he => hop (by rw [he])
    show ∃ r, dget tok (logout t tbl).2 = some r ∧ r.username = "alice"
    by_cases hp : (dget t tbl).isSome = true
    · have h2 : (logout t tbl).2 = ddel t tbl := by simp [logout, hp]
      rw [h2]
      exact ⟨r, by rw [dget_ddel_ne hne]; exact hr, hru⟩
    · have h2 : (logout t tbl).2 = tbl := by simp [logout, hp]
      rw [h2]
      exact ⟨r, hr, hru⟩
  | whoami t =>
    show ∃ r, dget tok (get_current_user t tbl).2 = some r ∧ r.username = "alice"
    rw [get_current_user_snd]
    exact ⟨r, hr, hru⟩

theorem alice_record_preserved_run (tok : String) (post : List Op) :
    ∀ tbl : SessionTable, (∀ op ∈ post, op ≠ Op.logout tok) →
      (∃ r, dget tok tbl = some r ∧ r.username = "alice") →
      ∃ r, dget tok (run tbl post) = some r ∧ r.username = "alice" := by
  induction post with
  | nil => exact fun tbl _ h => h
  | cons op ops ih =>
    intro tbl hno h
    exact ih (step tbl op) (fun o ho => hno o (List.mem_cons_of_mem _ ho))
      (alice_record_preserved tok op tbl (hno op (List.mem_cons_self _ _)) h)

theorem absent_preserved (t : String) (op : Op) (tbl : SessionTable)
    (hop : opFreshToken op ≠ some t) (h : dget t tbl = none) :
    dget t (step tbl op) = none := by
  cases op with
  | login u p tok2 now =>
    have hne : tok2 ≠ t := fun he => hop (by simp [opFreshToken, he])
    show dget t (login now tok2 u p tbl).2 = none
    rw [login_eq]
    by_cases hc : u = "alice" ∧ p = "wonderland"
    · rw [if_pos hc]
      show dget t (dins tok2 _ tbl) = none
      rw [dget_dins_ne hne]
      exact h
    · rw [if_neg hc]
      exact h
  | logout t2 =>
    show dget t (logout t2 tbl).2 = none
    by_cases hp : (dget t2 tbl).isSome = true
    · have h2 : (logout t2 tbl).2 = ddel t2 tbl := by simp [logout, hp]
      rw [h2]
      by_cases he : t2 = t
      · subst he; exact dget_ddel_self t2 tbl
      · rw [dget_ddel_ne he]; exact h
    · have h2 : (logout t2 tbl).2 = tbl := by simp [logout, hp]
      rw [h2]; exact h
  | whoami t2 =>
    show dget t (get_current_user t2 tbl).2 = none
    rw [get_current_user_snd]; exact h

theorem absent_preserved_run (t : String) (post : List Op) :
    ∀ tbl : SessionTable, (∀ op ∈ post, opFreshToken op ≠ some t) →
      dget t tbl = none → dget t (run tbl post) = none := by
  induction post with
  | nil => exact fun tbl _ h => h
  | cons op ops ih =>
    intro tbl hno h
    exact ih (step tbl op) (fun o ho => hno o (List.mem_cons_of_mem _ ho))
      (absent_preserved t op tbl (hno op (List.mem_cons_self _ _)) h)

/-! ### Claim theorems -/

/-- Claim C1: for every token returned by a successful login, whoami
(`get_current_user`) returns the identity that was authenticated at that
login, for as long as no logout of that token occurs.  The code never
expires sessions, so expiry never cuts this short. -/
theorem C1_whoami_returns_identity_until_logout
    (tbl : SessionTable) (u p tok : String) (now : Nat) (post : List Op)
    (hok : (login now tok u p tbl).1 = Except.ok tok)
    (hno : ∀ op ∈ post, op ≠ Op.logout tok) :
    (get_current_user tok (run (login now tok u p tbl).2 post)).1
      = Except.ok ⟨u⟩ := by
  by_cases hc : u = "alice" ∧ p = "wonderland"
  · have htbl : (login now tok u p tbl).2 = dins tok ⟨"alice", now⟩ tbl := by
      rw [login_eq, if_pos hc]
    rw [htbl]
    obtain ⟨r, hr, hru⟩ :=
      alice_record_preserved_run tok post (dins tok ⟨"alice", now⟩ tbl) hno
        ⟨⟨"alice", now⟩, dget_dins_self tok _ tbl, rfl⟩
    obtain ⟨hu, hp⟩ := hc
    subst hu
    simp [get_current_user, hr, hru]
  · rw [login_eq, if_neg hc] at hok
    exact absurd hok (by simp)

/-- Witness for C1 at a concrete run: alice logs in with token "T", a whoami
and an unrelated logout follow, and whoami still resolves "T" to alice. -/
theorem C1_whoami_returns_identity_until_logout_witness :
    (get_current_user "T" (run (login 0 "T" "alice" "wonderland" []).2
        [Op.whoami "T", Op.logout "U"])).1 = Except.ok ⟨"alice"⟩ :=
  C1_whoami_returns_identity_until_logout [] "alice" "wonderland" "T" 0
    [Op.whoami "T", Op.logout "U"] rfl (by decide)

/-- Claim C2 counterexample: the code never checks the generated token
against past issuances, so when `secrets.token_urlsafe` repeats a value a
successful login returns a token that an earlier login already issued.  In
the trace below the token "T" is issued once, and a second login for the
registered pair (alice, wonderland) succeeds and returns "T" again. -/
theorem C2_counterexample :
    "T" ∈ issuedTokens ([] : SessionTable)
        [Op.login "alice" "wonderland" "T" 0] ∧
    (login 1 "T" "alice" "wonderland"
        (run ([] : SessionTable) [Op.login "alice" "wonderland" "T" 0])).1
      = Except.ok "T" :=
  ⟨by decide, rfl⟩

/-- Claim C2 as amended: for every registered username with its correct
secret, login succeeds and returns the generated token, and that token was
not previously issued provided the random source draws a string different
from every previously issued one. -/
theorem C2_login_succeeds_fresh_token
    (tbl0 : SessionTable) (tr : List Op) (u p tok : String) (now : Nat)
    (hgood : bad_credentials u p = false)
    (hfresh : tok ∉ issuedTokens tbl0 tr) :
    ∃ t, (login now tok u p (run tbl0 tr)).1 = Except.ok t ∧
      t ∉ issuedTokens tbl0 tr := by
  obtain ⟨hu, hp⟩ := bad_credentials_false u p hgood
  exact ⟨tok, by rw [login_eq, if_pos ⟨hu, hp⟩], hfresh⟩

/-- Witness for the amended C2: after a login that issued "S", a login with
fresh draw "U" succeeds and returns a token not previously issued. -/
theorem C2_login_succeeds_fresh_token_witness :
    ∃ t, (login 1 "U" "alice" "wonderland"
        (run ([] : SessionTable) [Op.login "alice" "wonderland" "S" 0])).1
      = Except.ok t ∧
      t ∉ issuedTokens ([] : SessionTable)
          [Op.login "alice" "wonderland" "S" 0] :=
  C2_login_succeeds_fresh_token [] [Op.login "alice" "wonderland" "S" 0]
    "alice" "wonderland" "U" 1 (by decide) (by decide)

/-- Claim C3: whenever the username is unknown or the secret is wrong
(`bad_credentials`), login fails, and both cases produce the very same
error value, HTTP 401 with detail "Incorrect username or password" — the
error does not reveal whether the username exists. -/
theorem C3_invalid_credentials_uniform_error (u p tok : String) (now : Nat)
    (tbl : SessionTable) (h : bad_credentials u p = true) :
    (login now tok u p tbl).1
      = Except.error ⟨401, "Incorrect username or password"⟩ := by
  rw [login_eq, if_neg (not_good_of_bad u p h)]

/-- Witness for C3 on both failure shapes: an unknown username and a known
username with a wrong secret yield the identical error. -/
theorem C3_invalid_credentials_uniform_error_witness :
    (login 0 "T" "bob" "wonderland" ([] : SessionTable)).1
      = Except.error ⟨401, "Incorrect username or password"⟩ ∧
    (login 0 "T" "alice" "wrong" ([] : SessionTable)).1
      = Except.error ⟨401, "Incorrect username or password"⟩ :=
  ⟨C3_invalid_credentials_uniform_error "bob" "wonderland" "T" 0 [] (by decide),
   C3_invalid_credentials_uniform_error "alice" "wrong" "T" 0 [] (by decide)⟩

/-- Claim C4 counterexample: after a successful logout of "T", a later login
whose random draw collides on "T" re-creates the session, so a subsequent
whoami of "T" succeeds instead of failing. -/
theorem C4_counterexample :
    (logout "T" (login 0 "T" "alice" "wonderland" []).2).1
      = Except.ok "Successfully logged out." ∧
    (get_current_user "T"
        (run (logout "T" (login 0 "T" "alice" "wonderland" []).2).2
          [Op.login "alice" "wonderland" "T" 5])).1
      = Except.ok ⟨"alice"⟩ :=
  ⟨rfl, rfl⟩

/-- Claim C4 as amended: after a successful logout of a token, every
subsequent whoami of that token fails with the 401 not-found error, as long
as no later login draws the very same token string from the random source. -/
theorem C4_whoami_fails_after_logout (tbl : SessionTable) (t : String)
    (post : List Op)
    (hok : (logout t tbl).1 = Except.ok "Successfully logged out.")
    (hnore : ∀ op ∈ post, opFreshToken op ≠ some t) :
    (get_current_user t (run (logout t tbl).2 post)).1
      = Except.error ⟨401, "Invalid or expired token"⟩ := by
  by_cases hp : (dget t tbl).isSome = true
  · have h2 : (logout t tbl).2 = ddel t tbl := by simp [logout, hp]
    rw [h2]
    have habs := absent_preserved_run t post (ddel t tbl) hnore
      (dget_ddel_self t tbl)
    simp [get_current_user, habs]
  · simp [logout, hp] at hok

/-- Witness for the amended C4: logout of "T" succeeds, a later login draws
a different token "U", and whoami of "T" fails with the 401 error. -/
theorem C4_whoami_fails_after_logout_witness :
    (get_current_user "T"
        (run (logout "T" [("T", (⟨"alice", 0⟩ : SessionRecord))]).2
          [Op.login "alice" "wonderland" "U" 3, Op.whoami "T"])).1
      = Except.error ⟨401, "Invalid or expired token"⟩ :=
  C4_whoami_fails_after_logout [("T", ⟨"alice", 0⟩)] "T"
    [Op.login "alice" "wonderland" "U" 3, Op.whoami "T"] rfl (by decide)

/-- Claim C5, code bug: the code has no expiry at all.  `SessionRecord` has
no expires_at field, `get_current_user` takes no notion of the current time,
never produces a distinct Expired outcome, and never removes a record.  A
session created at time 0 still resolves on every later call, and the table
is left unchanged with the record still present. -/
theorem C5_no_expiry_code_bug :
    (get_current_user "T" (login 0 "T" "alice" "wonderland" []).2).1
      = Except.ok ⟨"alice"⟩ ∧
    (get_current_user "T" (login 0 "T" "alice" "wonderland" []).2).2
      = (login 0 "T" "alice" "wonderland" []).2 ∧
    (login 0 "T" "alice" "wonderland" []).2 = [("T", ⟨"alice", 0⟩)] :=
  ⟨rfl, rfl, rfl⟩

/-- Claim C6: logout removes the record for the token when one is present
(the resulting table is exactly the deletion of that key) and fails with the
401 not-found error, leaving the table unchanged, when none is present. -/
theorem C6_logout_removes_or_notfound (t : String) (tbl : SessionTable) :
    ((dget t tbl).isSome = true →
      logout t tbl = (Except.ok "Successfully logged out.", ddel t tbl)) ∧
    (dget t tbl = none →
      logout t tbl
        = (Except.error ⟨401, "Invalid or expired token"⟩, tbl)) := by
  constructor
  · intro h; simp [logout, h]
  · intro h; simp [logout, h]

/-- Witness for C6 on both branches: a present token is removed, an absent
token yields the 401 error and an unchanged table. -/
theorem C6_logout_removes_or_notfound_witness :
    logout "T" [("T", (⟨"alice", 0⟩ : SessionRecord))]
      = (Except.ok "Successfully logged out.", ([] : SessionTable)) ∧
    logout "T" ([] : SessionTable)
      = (Except.error ⟨401, "Invalid or expired token"⟩, ([] : SessionTable)) :=
  ⟨(C6_logout_removes_or_notfound "T" [("T", ⟨"alice", 0⟩)]).1 (by decide),
   (C6_logout_removes_or_notfound "T" []).2 rfl⟩

/-- Claim C7: every operation preserves the invariant that each record in
the session table names a username present in `fake_users_db` (which is
never mutated). -/
theorem C7_invariant_preserved (tbl : SessionTable) (op : Op)
    (h : TableInv tbl) : TableInv (step tbl op) := by
  cases op with
  | login u p tok now =>
    show TableInv (login now tok u p tbl).2
    rw [login_eq]
    by_cases hc : u = "alice" ∧ p = "wonderland"
    · rw [if_pos hc]
      intro pr hpr
      rcases List.mem_cons.mp hpr with he | hm
      · rw [he]
        show (dget "alice" fake_users_db).isSome = true
        decide
      · exact h pr (mem_ddel hm)
    · rw [if_neg hc]
      exact h
  | logout t =>
    show TableInv (logout t tbl).2
    by_cases hp : (dget t tbl).isSome = true
    · have h2 : (logout t tbl).2 = ddel t tbl := by simp [logout, hp]
      rw [h2]
      intro pr hpr
      exact h pr (mem_ddel hpr)
    · have h2 : (logout t tbl).2 = tbl := by simp [logout, hp]
      rw [h2]
      exact h
  | whoami t =>
    show TableInv (get_current_user t tbl).2
    rw [get_current_user_snd]
    exact h

/-- Witness for C7: a table satisfying the invariant still satisfies it
after a further login request. -/
theorem C7_invariant_preserved_witness :
    TableInv (step [("S", ⟨"alice", 0⟩)]
      (Op.login "alice" "wonderland" "U" 1)) :=
  C7_invariant_preserved [("S", ⟨"alice", 0⟩)]
    (Op.login "alice" "wonderland" "U" 1)
    (by unfold TableInv; decide)

/-- Claim C8, code bug: on a token collision the code overwrites.  Starting
from a table holding the session ("T", created at 0), a login whose random
draw is again "T" succeeds, returns "T", and leaves a single record with
created_at 5: the existing record was replaced, and no re-draw happened. -/
theorem C8_collision_overwrites_code_bug :
    run ([] : SessionTable) [Op.login "alice" "wonderland" "T" 0]
      = [("T", ⟨"alice", 0⟩)] ∧
    (login 5 "T" "alice" "wonderland"
        (run ([] : SessionTable) [Op.login "alice" "wonderland" "T" 0])).1
      = Except.ok "T" ∧
    run ([] : SessionTable)
        [Op.login "alice" "wonderland" "T" 0,
         Op.login "alice" "wonderland" "T" 5]
      = [("T", ⟨"alice", 5⟩)] :=
  ⟨rfl, rfl, rfl⟩

/-- Claim C9: whoami is read-only.  For every token and table, the
`get_current_user` dependency and the `/me` handler return the table
unchanged, on the success path and on the failure path alike. -/
theorem C9_whoami_readonly (t : String) (tbl : SessionTable) :
    (get_current_user t tbl).2 = tbl ∧ (read_users_me t tbl).2 = tbl ∧
      step tbl (Op.whoami t) = tbl := by
  have h := get_current_user_snd t tbl
  exact ⟨h, h, h⟩

/-- Claim C10: login is atomic on failure — with an unknown username or a
wrong secret, the session table after the failed login is exactly the table
before it. -/
theorem C10_login_failure_preserves_table (u p tok : String) (now : Nat)
    (tbl : SessionTable) (h : bad_credentials u p = true) :
    (login now tok u p tbl).2 = tbl := by
  rw [login_eq, if_neg (not_good_of_bad u p h)]

/-- Witness for C10: a failed login against a non-empty table leaves it
exactly as it was. -/
theorem C10_login_failure_preserves_table_witness :
    (login 0 "T" "bob" "x" [("S", (⟨"alice", 0⟩ : SessionRecord))]).2
      = [("S", ⟨"alice", 0⟩)] :=
  C10_login_failure_preserves_table "bob" "x" "T" 0
    [("S", ⟨"alice", 0⟩)] (by decide)
